import Mathlib

/-!
Verification of the core of `BinanceWithdraw` (`src/binance.py`): the query
canonicalizer `make_query_string`, the signed request/retry engine
`Client.request`, and the listen-key (session token) manager
`Client.create_listen_key`, shallowly embedded in Lean.

Modelling conventions:
* Python `dict` parameters (insertion-ordered) become `List (String × String)`;
  `str(value)` has already been applied, so values are strings.
* `hmac.new(key, msg, sha256).hexdigest()` is an opaque pure function
  `hmacHex : String → String → String` supplied in the environment: the claims
  under study are about *which* bytes are signed and sent, not about SHA256.
* `r.json()` is an opaque pure decoder `jsonDecode : String → J`.
* The network is a pure oracle `responses : Nat → Response` giving the response
  to the i-th attempt, and the clock is `clock : Nat → Nat` giving the
  millisecond reading `round(time.time()*1000)` observed on the i-th attempt.
* Exceptions become `Except` / explicit error outcomes.
-/

/-- Python `str.upper()` on the ASCII strings this client passes around
(methods, modes, symbols), character by character. (`String.toUpper` itself is
defined by well-founded recursion and does not reduce definitionally, which
would block concrete evaluation.) -/
def pyUpper (s : String) : String :=
  (s.toList.map Char.toUpper).asString

/-- `get_timestamp` (src/binance.py:54-58): `str(round(time.time() * 1000))`,
with the millisecond reading supplied as `nowMs`. -/
def get_timestamp (nowMs : Nat) : String :=
  toString nowMs

/-- `make_query_string(**kwargs)` (src/binance.py:104-118): returns `''` for an
empty mapping, otherwise appends `key + '=' + str(value) + '&'` for each entry
in iteration order and then drops the final `'&'` (`res[:len(res)-1]`). -/
def make_query_string (kwargs : List (String × String)) : String :=
  if kwargs.length ≠ 0 then
    let res := kwargs.foldl (fun acc kv => acc ++ kv.1 ++ "=" ++ kv.2 ++ "&") ""
    res.toList.dropLast.asString
  else ""

/-- Refinement reference for C4, following the spec's words: the `key=value`
pairs joined in the mapping's iteration order by `&`, with no trailing
separator, and the empty mapping mapped to the empty string. -/
def joined_pairs : List (String × String) → String
  | [] => ""
  | [kv] => kv.1 ++ "=" ++ kv.2
  | kv :: kv2 :: rest => kv.1 ++ "=" ++ kv.2 ++ "&" ++ joined_pairs (kv2 :: rest)

/-- Helper: the string built by the loop body of `make_query_string`
(each pair rendered as `key=value&`). -/
def amp_str : List (String × String) → String
  | [] => ""
  | kv :: rest => kv.1 ++ "=" ++ kv.2 ++ "&" ++ amp_str rest

/-! ### Signed Request Engine: `Client.request` (src/binance.py:133-235)

Not modelled because no claim depends on them: the `X-MBX-APIKEY` header (the
public key), the optional forward proxy, and the `asyncio.sleep(retry_interval)`
pause between attempts. -/

/-- The `data` argument of `Client.request`: a parameter `dict` (insertion
ordered, values already stringified) or a pre-serialized string
(src/binance.py:161-170). -/
inductive ReqData where
  | dict (d : List (String × String))
  | str (s : String)
deriving DecidableEq, Inhabited

/-- An HTTP response as `Client.request` observes it: `r.status_code` and
`r.text`. -/
structure Response where
  status_code : Nat
  text : String
deriving DecidableEq, Inhabited

/-- Python `data['timestamp'] = ts` on an insertion-ordered dict: overwrite in
place when the key is present, otherwise append at the end. -/
def dictSet : List (String × String) → String → String → List (String × String)
  | [], k, v => [(k, v)]
  | (k', v') :: rest, k, v =>
    if k' = k then (k, v) :: rest else (k', v') :: dictSet rest k v

/-- Lookup in an insertion-ordered dict. -/
def dictGet : List (String × String) → String → Option String
  | [], _ => none
  | (k', v') :: rest, k => if k' = k then some v' else dictGet rest k

/-- The process-wide verbosity/trace flags (src/binance.py:27-29):
`only_print_error`, `print_simple_trace`, `trace_to_file`. -/
structure TraceFlags where
  only_print_error : Bool
  print_simple_trace : Bool
  trace_to_file : Bool
deriving DecidableEq, Inhabited

/-- Where a diagnostic block is surfaced: the console (`print`) or the
append-only trace file `requests_trace.txt`. -/
inductive Sink where
  | console
  | file
deriving DecidableEq, Inhabited

/-- One surfaced diagnostic block: where it went, the request URL, the status
code, and the portion of the response body that is shown. -/
structure Diagnostic where
  sink : Sink
  url : String
  status_code : Nat
  text : String
deriving DecidableEq, Inhabited

/-- The diagnostics one attempt emits (src/binance.py:198-226), in source
order: unless `only_print_error`, a console block whose body is truncated to 50
characters (`r.text[:50]`) exactly when `print_simple_trace`; a full file block
when `trace_to_file`; and, for a non-200 status, an additional full console
block exactly when `only_print_error`. -/
def attemptDiagnostics (fl : TraceFlags) (url : String) (r : Response) :
    List Diagnostic :=
  (if fl.only_print_error = false then
    if fl.print_simple_trace = true then
      [{ sink := .console, url := url, status_code := r.status_code,
         text := r.text.take 50 }]
    else
      [{ sink := .console, url := url, status_code := r.status_code,
         text := r.text }]
  else []) ++
  (if fl.trace_to_file = true then
    [{ sink := .file, url := url, status_code := r.status_code,
       text := r.text }]
  else []) ++
  (if r.status_code ≠ 200 ∧ fl.only_print_error = true then
    [{ sink := .console, url := url, status_code := r.status_code,
       text := r.text }]
  else [])

/-- The pure environment of one `Client.request` run: the HMAC-SHA256 hex
digest function, the JSON decoder, the credentials' private key, the
process-wide `base_url` and trace flags, the network (response to the i-th
attempt), and the clock (millisecond reading on the i-th attempt). -/
structure ReqEnv (J : Type) where
  hmacHex : String → String → String
  jsonDecode : String → J
  private_key : String
  base_url : String
  flags : TraceFlags
  responses : Nat → Response
  clock : Nat → Nat

/-- The per-call arguments of `Client.request` other than `data`,
`retry_count` and `retry_interval` (src/binance.py:133-134). -/
structure ReqArgs where
  area_url : String
  path_url : String
  method : String
  test : Bool
  send_signature : Bool
  auto_timestamp : Bool

/-- What one attempt transmits: the parameters at serialization time, the
canonical payload `str_data`, the signature computed over it, and the URL. -/
structure SentAttempt where
  params : ReqData
  str_data : String
  signature : String
  url : String
deriving DecidableEq, Inhabited

/-- The URL up to the `?`:
`'https://{area_url}.{base_url}{path_url}{test_path}'` (src/binance.py:174-178). -/
def urlStem (base_url : String) (args : ReqArgs) : String :=
  "https://" ++ args.area_url ++ "." ++ base_url ++ args.path_url
    ++ (if args.test then "/test" else "")

/-- Build the transmitted record of one attempt from its payload string
(src/binance.py:171-178): sign `str_data` with the private key, and append
`?{str_data}&signature={signature}` (or `?{str_data}` when `send_signature`
is off) to the URL stem. -/
def mkSent {J : Type} (env : ReqEnv J) (args : ReqArgs) (params : ReqData)
    (str_data : String) : SentAttempt :=
  let signature := env.hmacHex env.private_key str_data
  { params := params
    str_data := str_data
    signature := signature
    url :=
      if args.send_signature then
        urlStem env.base_url args ++ "?" ++ str_data ++ "&signature=" ++ signature
      else
        urlStem env.base_url args ++ "?" ++ str_data }

/-- One attempt's payload construction (src/binance.py:161-172): for a dict,
inject/overwrite `timestamp` when `auto_timestamp` and serialize with
`make_query_string`; a pre-serialized string is used as is. Returns the
(possibly mutated) `data` together with the transmitted record. -/
def buildAttempt {J : Type} (env : ReqEnv J) (args : ReqArgs) (ts : String) :
    ReqData → ReqData × SentAttempt
  | .dict d =>
    let d' := if args.auto_timestamp then dictSet d "timestamp" ts else d
    (.dict d', mkSent env args (.dict d') (make_query_string d'))
  | .str s => (.str s, mkSent env args (.str s) s)

/-- Failures of `Client.request`: the method-validation `raise`
(src/binance.py:152-153) and `BinanceException(status_code, response)` once the
retry budget is exhausted (src/binance.py:230). -/
inductive ReqError where
  | invalidMethod
  | binance (status_code : Nat) (response : String)
deriving DecidableEq

/-- The observable outcome of a `Client.request` run: how many attempts were
performed, what each attempt transmitted, every diagnostic surfaced, and the
returned value or raised error. -/
structure RunResult (J : Type) where
  attempts : Nat
  sent : List SentAttempt
  diags : List Diagnostic
  result : Except ReqError J

/-- The `while True` retry loop of `Client.request` (src/binance.py:150-235):
validate the method, build and "send" the attempt, and on a non-200 status
either consume one unit of retry budget and recurse on the next attempt index,
or raise `BinanceException` with the last status and body; a 200 status
returns the decoded body at once. -/
def requestLoop {J : Type} (env : ReqEnv J) (args : ReqArgs) (data : ReqData)
    (attempt : Nat) (retry_count : Nat) : RunResult J :=
  let method := pyUpper args.method
  if method ≠ "POST" ∧ method ≠ "GET" ∧ method ≠ "PUT" then
    { attempts := 0, sent := [], diags := [], result := .error .invalidMethod }
  else
    let ts := get_timestamp (env.clock attempt)
    let p := buildAttempt env args ts data
    let r := env.responses attempt
    let ds := attemptDiagnostics env.flags p.2.url r
    if r.status_code ≠ 200 then
      match retry_count with
      | rc + 1 =>
        let tail := requestLoop env args p.1 (attempt + 1) rc
        { attempts := tail.attempts + 1, sent := p.2 :: tail.sent,
          diags := ds ++ tail.diags, result := tail.result }
      | 0 =>
        { attempts := 1, sent := [p.2], diags := ds,
          result := .error (.binance r.status_code r.text) }
    else
      { attempts := 1, sent := [p.2], diags := ds,
        result := .ok (env.jsonDecode r.text) }

/-- `Client.request` (src/binance.py:133-235): the retry loop started on
attempt 0 with the full retry budget. -/
def Client.request {J : Type} (env : ReqEnv J) (args : ReqArgs)
    (data : ReqData) (retry_count : Nat) : RunResult J :=
  requestLoop env args data 0 retry_count

/-- C1's property of one transmitted attempt: the signature is the HMAC hex
digest of exactly the payload `str_data`, and the URL's query is that exact
payload followed by `&signature=<hex>`. -/
def signedCorrectly {J : Type} (env : ReqEnv J) (args : ReqArgs)
    (sa : SentAttempt) : Prop :=
  sa.signature = env.hmacHex env.private_key sa.str_data
    ∧ sa.url = urlStem env.base_url args ++ "?" ++ sa.str_data
        ++ "&signature=" ++ sa.signature

/-! ### Session Token Manager: `Client.create_listen_key` (src/binance.py:237-266) -/

/-- Validation failures of `Client.create_listen_key`: the mode check
(src/binance.py:244-245) and the missing isolated-margin symbol check
(src/binance.py:255-256). -/
inductive LKError where
  | invalidMode
  | missingSymbol
deriving DecidableEq

/-- The single HTTP call a validated `create_listen_key` performs through
`Client.request` (the response's `listenKey` field is then returned). -/
structure NetworkCall where
  area_url : String
  path_url : String
  method : String
  data : ReqData
  send_signature : Bool
deriving DecidableEq

/-- `Client.create_listen_key(mode, symbol)` (src/binance.py:237-266): validate
`mode` against MAIN/FUTURE/MARGIN/ISOLATED, then dispatch to the mode's fixed
unsigned POST endpoint; ISOLATED first requires a `symbol` (uppercased into the
parameters). An `.error` outcome performs no network call; an `.ok c` outcome
performs exactly the call `c`. -/
def Client.create_listen_key (mode : String) (symbol : Option String) :
    Except LKError NetworkCall :=
  if mode ≠ "MAIN" ∧ mode ≠ "FUTURE" ∧ mode ≠ "MARGIN" ∧ mode ≠ "ISOLATED" then
    .error .invalidMode
  else if mode = "MAIN" then
    .ok { area_url := "api", path_url := "/api/v3/userDataStream",
          method := "POST", data := .dict [], send_signature := false }
  else if mode = "MARGIN" then
    .ok { area_url := "api", path_url := "/sapi/v1/userDataStream",
          method := "POST", data := .dict [], send_signature := false }
  else if mode = "ISOLATED" then
    match symbol with
    | none => .error .missingSymbol
    | some s =>
      .ok { area_url := "api", path_url := "/sapi/v1/userDataStream/isolated",
            method := "POST", data := .dict [("symbol", pyUpper s)],
            send_signature := false }
  else
    .ok { area_url := "fapi", path_url := "/fapi/v1/listenKey",
          method := "POST", data := .dict [], send_signature := false }

/-- How many network calls a `create_listen_key` outcome performs: none on a
validation error, one on success. -/
def networkCallCount : Except LKError NetworkCall → Nat
  | .error _ => 0
  | .ok _ => 1

/-! ### Decimal-representation helpers

`get_timestamp` renders the clock with `str(...)`, i.e. `Nat.repr`. To show
that distinct clock readings give distinct timestamp strings we prove
`Nat.repr` injective via an explicit decimal representation. -/

/-- Numeric value of a decimal digit character. -/
def chVal (c : Char) : Nat :=
  c.toNat - 48

/-- Read a decimal digit string back into a number. -/
def parse10 (l : List Char) : Nat :=
  l.foldl (fun a c => a * 10 + chVal c) 0

/-- Reference decimal rendering: most significant digit first. -/
def rep10 (n : Nat) : List Char :=
  if h : n < 10 then [Nat.digitChar n]
  else
    have : n / 10 < n := Nat.div_lt_self (by omega) (by omega)
    rep10 (n / 10) ++ [Nat.digitChar (n % 10)]

/-- The `timestamp` parameter a transmitted attempt carried, if any. -/
def paramsTimestamp (sa : SentAttempt) : Option String :=
  match sa.params with
  | .dict d => dictGet d "timestamp"
  | .str _ => none

/-! ### Concrete fixtures used by the witness theorems -/

/-- A concrete stand-in digest function for witnesses (any pure function of the
key and message works: the engine's invariants do not depend on which). -/
def hmacFn (key msg : String) : String :=
  key ++ "|" ++ msg

/-- A network that always answers 200. -/
def respOK : Nat → Response :=
  fun _ => { status_code := 200, text := "ok" }

/-- A network that always answers 500 (a permanent failure). -/
def respFail : Nat → Response :=
  fun _ => { status_code := 500, text := "err" }

/-- A network that answers 500 on the first two attempts and 200 afterwards. -/
def resp2Fail : Nat → Response :=
  fun i => if i < 2 then { status_code := 500, text := "err" }
    else { status_code := 200, text := "okbody" }

/-- A response body longer than 50 characters. -/
def longBody : String :=
  "this response body is noticeably longer than fifty characters"

/-- A network that always answers 500 with a long body. -/
def respFailLong : Nat → Response :=
  fun _ => { status_code := 500, text := longBody }

/-- The default flag setting of the source (src/binance.py:27-29). -/
def flagsQuiet : TraceFlags :=
  { only_print_error := true, print_simple_trace := true, trace_to_file := false }

/-- Verbose console tracing with simplified output and no file trace. -/
def flagsVerboseSimple : TraceFlags :=
  { only_print_error := false, print_simple_trace := true, trace_to_file := false }

/-- A concrete request environment over the given network and flags. -/
def mkEnvS (rs : Nat → Response) (fl : TraceFlags) : ReqEnv String :=
  { hmacHex := hmacFn, jsonDecode := id, private_key := "sk",
    base_url := "binance.com", flags := fl, responses := rs,
    clock := fun i => 1700000000000 + i }

/-- Concrete request arguments: signed POST with auto-timestamp. -/
def argsW : ReqArgs :=
  { area_url := "api", path_url := "/api/v3/order", method := "POST",
    test := false, send_signature := true, auto_timestamp := true }

theorem mqs_foldl (l : List (String × String)) (acc : String) :
    l.foldl (fun acc kv => acc ++ kv.1 ++ "=" ++ kv.2 ++ "&") acc
      = acc ++ amp_str l := by
  induction l generalizing acc with
  | nil => simp [amp_str]
  | cons kv rest ih =>
    rw [List.foldl_cons, ih]
    simp [amp_str, String.append_assoc]

theorem amp_str_eq_joined (l : List (String × String)) (h : l ≠ []) :
    amp_str l = joined_pairs l ++ "&" := by
  induction l with
  | nil => exact absurd rfl h
  | cons kv rest ih =>
    cases rest with
    | nil => simp [amp_str, joined_pairs]
    | cons kv2 rest2 =>
      have hstep : amp_str (kv :: kv2 :: rest2)
          = kv.1 ++ "=" ++ kv.2 ++ "&" ++ amp_str (kv2 :: rest2) := rfl
      rw [hstep, ih (by simp)]
      simp [joined_pairs, String.append_assoc]

theorem make_query_string_ne_nil (l : List (String × String)) (h : l ≠ []) :
    make_query_string l = joined_pairs l := by
  have hlen : l.length ≠ 0 := by simpa using h
  simp only [make_query_string, if_pos hlen, mqs_foldl, amp_str_eq_joined l h]
  have : ("" ++ (joined_pairs l ++ "&")).toList = (joined_pairs l).toList ++ ['&'] := by
    simp [String.toList]
  rw [this, List.dropLast_concat, String.asString_toList]

/-- C4: the Query Canonicalizer maps the empty mapping to the empty string and
every non-empty ordered mapping to the `key=value` pairs joined in iteration
order by `&` with no trailing separator; in particular
`canonicalize({a:1,b:2}) = "a=1&b=2"`. -/
theorem c4_make_query_string_spec (l : List (String × String)) :
    make_query_string l = joined_pairs l
      ∧ make_query_string [] = ""
      ∧ make_query_string [("a", "1"), ("b", "2")] = "a=1&b=2" := by
  refine ⟨?_, rfl, by decide⟩
  cases l with
  | nil => rfl
  | cons kv rest => exact make_query_string_ne_nil _ (by simp)

theorem requestLoop_invalid {J : Type} (env : ReqEnv J) (args : ReqArgs)
    (data : ReqData) (attempt rc : Nat)
    (hm : pyUpper args.method ≠ "POST" ∧ pyUpper args.method ≠ "GET"
      ∧ pyUpper args.method ≠ "PUT") :
    requestLoop env args data attempt rc
      = { attempts := 0, sent := [], diags := [],
          result := .error .invalidMethod } := by
  rw [requestLoop]
  simp only [if_pos hm]

theorem requestLoop_retry {J : Type} (env : ReqEnv J) (args : ReqArgs)
    (data : ReqData) (attempt rc : Nat)
    (hm : ¬(pyUpper args.method ≠ "POST" ∧ pyUpper args.method ≠ "GET"
      ∧ pyUpper args.method ≠ "PUT"))
    (hr : (env.responses attempt).status_code ≠ 200) :
    requestLoop env args data attempt (rc + 1)
      = { attempts :=
            (requestLoop env args
              (buildAttempt env args (get_timestamp (env.clock attempt)) data).1
              (attempt + 1) rc).attempts + 1,
          sent :=
            (buildAttempt env args (get_timestamp (env.clock attempt)) data).2
              :: (requestLoop env args
                    (buildAttempt env args (get_timestamp (env.clock attempt)) data).1
                    (attempt + 1) rc).sent,
          diags :=
            attemptDiagnostics env.flags
              (buildAttempt env args (get_timestamp (env.clock attempt)) data).2.url
              (env.responses attempt)
            ++ (requestLoop env args
                  (buildAttempt env args (get_timestamp (env.clock attempt)) data).1
                  (attempt + 1) rc).diags,
          result :=
            (requestLoop env args
              (buildAttempt env args (get_timestamp (env.clock attempt)) data).1
              (attempt + 1) rc).result } := by
  conv_lhs => rw [requestLoop]
  simp only [if_neg hm, if_pos hr]

theorem requestLoop_exhausted {J : Type} (env : ReqEnv J) (args : ReqArgs)
    (data : ReqData) (attempt : Nat)
    (hm : ¬(pyUpper args.method ≠ "POST" ∧ pyUpper args.method ≠ "GET"
      ∧ pyUpper args.method ≠ "PUT"))
    (hr : (env.responses attempt).status_code ≠ 200) :
    requestLoop env args data attempt 0
      = { attempts := 1,
          sent := [(buildAttempt env args (get_timestamp (env.clock attempt)) data).2],
          diags :=
            attemptDiagnostics env.flags
              (buildAttempt env args (get_timestamp (env.clock attempt)) data).2.url
              (env.responses attempt),
          result := .error (.binance (env.responses attempt).status_code
            (env.responses attempt).text) } := by
  conv_lhs => rw [requestLoop]
  simp only [if_neg hm, if_pos hr]

theorem requestLoop_ok {J : Type} (env : ReqEnv J) (args : ReqArgs)
    (data : ReqData) (attempt rc : Nat)
    (hm : ¬(pyUpper args.method ≠ "POST" ∧ pyUpper args.method ≠ "GET"
      ∧ pyUpper args.method ≠ "PUT"))
    (hr : (env.responses attempt).status_code = 200) :
    requestLoop env args data attempt rc
      = { attempts := 1,
          sent := [(buildAttempt env args (get_timestamp (env.clock attempt)) data).2],
          diags :=
            attemptDiagnostics env.flags
              (buildAttempt env args (get_timestamp (env.clock attempt)) data).2.url
              (env.responses attempt),
          result := .ok (env.jsonDecode (env.responses attempt).text) } := by
  conv_lhs => rw [requestLoop]
  simp only [if_neg hm]
  rw [if_neg (by simp [hr])]

theorem chVal_digitChar (d : Nat) (h : d < 10) : chVal (Nat.digitChar d) = d := by
  interval_cases d <;> decide

theorem toDigitsCore_eq_rep10 :
    ∀ (fuel n : Nat) (ds : List Char), n < fuel →
      Nat.toDigitsCore 10 fuel n ds = rep10 n ++ ds := by
  intro fuel
  induction fuel with
  | zero => intro n ds h; omega
  | succ fuel ih =>
    intro n ds h
    by_cases h10 : n / 10 = 0
    · have hn : n < 10 := by omega
      rw [rep10, dif_pos hn]
      simp [Nat.toDigitsCore, h10, Nat.mod_eq_of_lt hn]
    · have hlt : n / 10 < fuel := by omega
      rw [rep10, dif_neg (show ¬n < 10 by omega)]
      simp only [Nat.toDigitsCore, h10, if_neg h10]
      rw [ih _ _ hlt]
      simp

theorem toDigits_eq_rep10 (n : Nat) : Nat.toDigits 10 n = rep10 n := by
  have := toDigitsCore_eq_rep10 (n + 1) n [] (Nat.lt_succ_self n)
  simpa [Nat.toDigits] using this

theorem parse10_append_digit (l : List Char) (c : Char) :
    parse10 (l ++ [c]) = parse10 l * 10 + chVal c := by
  simp [parse10, List.foldl_append]

theorem parse10_rep10 (n : Nat) : parse10 (rep10 n) = n := by
  induction n using Nat.strong_induction_on with
  | _ n ih =>
    by_cases h : n < 10
    · rw [rep10, dif_pos h]
      simp [parse10, chVal_digitChar n h]
    · rw [rep10, dif_neg h]
      rw [parse10_append_digit]
      rw [chVal_digitChar (n % 10) (Nat.mod_lt _ (by omega))]
      rw [ih (n / 10) (Nat.div_lt_self (by omega) (by omega))]
      omega

theorem rep10_injective {m n : Nat} (h : rep10 m = rep10 n) : m = n := by
  have := congrArg parse10 h
  simpa [parse10_rep10] using this

theorem natRepr_injective {m n : Nat} (h : Nat.repr m = Nat.repr n) : m = n := by
  apply rep10_injective
  have h' : (Nat.toDigits 10 m).asString = (Nat.toDigits 10 n).asString := h
  rw [toDigits_eq_rep10, toDigits_eq_rep10] at h'
  exact List.asString_inj.mp h'

theorem get_timestamp_injective {m n : Nat} (h : get_timestamp m = get_timestamp n) :
    m = n :=
  natRepr_injective h

theorem dictGet_dictSet (d : List (String × String)) (k v : String) :
    dictGet (dictSet d k v) k = some v := by
  induction d with
  | nil => simp [dictSet, dictGet]
  | cons kv rest ih =>
    obtain ⟨k', v'⟩ := kv
    by_cases h : k' = k
    · simp [dictSet, dictGet, h]
    · simp [dictSet, dictGet, h, ih]

theorem mkSent_signedCorrectly {J : Type} (env : ReqEnv J) (args : ReqArgs)
    (hs : args.send_signature = true) (params : ReqData) (sd : String) :
    signedCorrectly env args (mkSent env args params sd) := by
  simp [signedCorrectly, mkSent, hs]

theorem buildAttempt_signedCorrectly {J : Type} (env : ReqEnv J) (args : ReqArgs)
    (hs : args.send_signature = true) (ts : String) (data : ReqData) :
    signedCorrectly env args (buildAttempt env args ts data).2 := by
  cases data with
  | dict d => exact mkSent_signedCorrectly env args hs _ _
  | str s => exact mkSent_signedCorrectly env args hs _ _

theorem sent_all_signed {J : Type} (env : ReqEnv J) (args : ReqArgs)
    (hs : args.send_signature = true) :
    ∀ (rc : Nat) (data : ReqData) (attempt i : Nat),
      i < (requestLoop env args data attempt rc).sent.length →
      signedCorrectly env args
        ((requestLoop env args data attempt rc).sent.getD i default) := by
  intro rc
  induction rc with
  | zero =>
    intro data attempt i hi
    by_cases hm : pyUpper args.method ≠ "POST" ∧ pyUpper args.method ≠ "GET"
        ∧ pyUpper args.method ≠ "PUT"
    · rw [requestLoop_invalid env args data attempt 0 hm] at hi
      simp at hi
    · by_cases hr : (env.responses attempt).status_code = 200
      · rw [requestLoop_ok env args data attempt 0 hm hr] at hi ⊢
        have h0 : i = 0 := by simpa using hi
        subst h0
        simpa [List.getD] using buildAttempt_signedCorrectly env args hs _ _
      · rw [requestLoop_exhausted env args data attempt hm hr] at hi ⊢
        have h0 : i = 0 := by simpa using hi
        subst h0
        simpa [List.getD] using buildAttempt_signedCorrectly env args hs _ _
  | succ rc ih =>
    intro data attempt i hi
    by_cases hm : pyUpper args.method ≠ "POST" ∧ pyUpper args.method ≠ "GET"
        ∧ pyUpper args.method ≠ "PUT"
    · rw [requestLoop_invalid env args data attempt (rc + 1) hm] at hi
      simp at hi
    · by_cases hr : (env.responses attempt).status_code = 200
      · rw [requestLoop_ok env args data attempt (rc + 1) hm hr] at hi ⊢
        have h0 : i = 0 := by simpa using hi
        subst h0
        simpa [List.getD] using buildAttempt_signedCorrectly env args hs _ _
      · rw [requestLoop_retry env args data attempt rc hm hr] at hi ⊢
        cases i with
        | zero =>
          simpa [List.getD] using buildAttempt_signedCorrectly env args hs _ _
        | succ j =>
          simp only [List.length_cons, Nat.succ_lt_succ_iff] at hi
          simpa [List.getD_cons_succ] using ih _ (attempt + 1) j hi

/-- C1: on every attempt of every request with `send_signature` set, the
HMAC-SHA256 hex signature is computed over exactly the canonical query string
that is transmitted: the URL is the stem followed by `?`, that exact payload,
and `&signature=<hex digest of that payload under the private key>`, so the
signed bytes equal the sent bytes. -/
theorem c1_signature_over_sent_bytes {J : Type} (env : ReqEnv J) (args : ReqArgs)
    (data : ReqData) (retry_count : Nat) (hs : args.send_signature = true)
    (i : Nat) (hi : i < (Client.request env args data retry_count).sent.length) :
    signedCorrectly env args
      ((Client.request env args data retry_count).sent.getD i default) :=
  sent_all_signed env args hs retry_count data 0 i hi

theorem c1_witness :
    argsW.send_signature = true
    ∧ 0 < (Client.request (mkEnvS respOK flagsQuiet) argsW
        (.dict [("a", "1")]) 0).sent.length
    ∧ signedCorrectly (mkEnvS respOK flagsQuiet) argsW
        ((Client.request (mkEnvS respOK flagsQuiet) argsW
          (.dict [("a", "1")]) 0).sent.getD 0 default) :=
  ⟨rfl, by decide,
    c1_signature_over_sent_bytes (mkEnvS respOK flagsQuiet) argsW
      (.dict [("a", "1")]) 0 rfl 0 (by decide)⟩

theorem all_fail_run {J : Type} (env : ReqEnv J) (args : ReqArgs)
    (hm : ¬(pyUpper args.method ≠ "POST" ∧ pyUpper args.method ≠ "GET"
      ∧ pyUpper args.method ≠ "PUT"))
    (hfail : ∀ i, (env.responses i).status_code ≠ 200) :
    ∀ (rc : Nat) (data : ReqData) (attempt : Nat),
      (requestLoop env args data attempt rc).attempts = rc + 1
      ∧ (requestLoop env args data attempt rc).result
          = .error (.binance (env.responses (attempt + rc)).status_code
              (env.responses (attempt + rc)).text) := by
  intro rc
  induction rc with
  | zero =>
    intro data attempt
    rw [requestLoop_exhausted env args data attempt hm (hfail attempt)]
    simp
  | succ rc ih =>
    intro data attempt
    rw [requestLoop_retry env args data attempt rc hm (hfail attempt)]
    have tail := ih (buildAttempt env args (get_timestamp (env.clock attempt)) data).1
      (attempt + 1)
    refine ⟨by simp [tail.1], ?_⟩
    have harith : attempt + 1 + rc = attempt + (rc + 1) := by omega
    simpa [harith] using tail.2

/-- C2: when every attempt's response is non-200, a request with retry budget
`n` performs exactly `n + 1` attempts and raises `BinanceException` carrying
the status code and raw body of the last response; in particular with budget 2
and a permanent 500 it raises after exactly 3 attempts carrying status 500 and
the last body. -/
theorem c2_retries_exhausted {J : Type} (env : ReqEnv J) (args : ReqArgs)
    (data : ReqData) (n : Nat)
    (hm : pyUpper args.method = "POST" ∨ pyUpper args.method = "GET"
      ∨ pyUpper args.method = "PUT")
    (hfail : ∀ i, (env.responses i).status_code ≠ 200) :
    (Client.request env args data n).attempts = n + 1
    ∧ (Client.request env args data n).result
        = .error (.binance (env.responses n).status_code (env.responses n).text)
    ∧ ((∀ i, (env.responses i).status_code = 500) →
        (Client.request env args data 2).attempts = 3
        ∧ (Client.request env args data 2).result
            = .error (.binance 500 (env.responses 2).text)) := by
  have hm' : ¬(pyUpper args.method ≠ "POST" ∧ pyUpper args.method ≠ "GET"
      ∧ pyUpper args.method ≠ "PUT") := by tauto
  have base := all_fail_run env args hm' hfail
  refine ⟨?_, ?_, ?_⟩
  · simpa [Client.request] using (base n data 0).1
  · simpa [Client.request] using (base n data 0).2
  · intro h500
    refine ⟨by simpa [Client.request] using (base 2 data 0).1, ?_⟩
    have h2 := (base 2 data 0).2
    simp only [Nat.zero_add] at h2
    simpa [Client.request, h500 2] using h2

theorem c2_witness :
    (∀ i, ((mkEnvS respFail flagsQuiet).responses i).status_code ≠ 200)
    ∧ (Client.request (mkEnvS respFail flagsQuiet) argsW (.dict []) 2).attempts = 3
    ∧ (Client.request (mkEnvS respFail flagsQuiet) argsW (.dict []) 2).result
        = .error (.binance 500 "err") := by
  have hfail : ∀ i, ((mkEnvS respFail flagsQuiet).responses i).status_code ≠ 200 := by
    intro i; simp [mkEnvS, respFail]
  have main := c2_retries_exhausted (mkEnvS respFail flagsQuiet) argsW
    (.dict []) 2 (Or.inl (by decide)) hfail
  have h500 : ∀ i, ((mkEnvS respFail flagsQuiet).responses i).status_code = 500 := by
    intro i; simp [mkEnvS, respFail]
  exact ⟨hfail, (main.2.2 h500).1, (main.2.2 h500).2⟩

/-- C3: with retry budget 3, when attempts 1 and 2 answer 500 and attempt 3
answers 200, the engine performs exactly 3 attempts and returns the decoded
JSON body of attempt 3; with auto-timestamp on, each attempt serializes a
`timestamp` field equal to that attempt's clock reading, so the injected
timestamps differ across the three attempts whenever the clock readings do. -/
theorem c3_retry_refreshes_timestamp {J : Type} (env : ReqEnv J) (args : ReqArgs)
    (d : List (String × String))
    (hm : pyUpper args.method = "POST" ∨ pyUpper args.method = "GET"
      ∨ pyUpper args.method = "PUT")
    (hauto : args.auto_timestamp = true)
    (h0 : (env.responses 0).status_code = 500)
    (h1 : (env.responses 1).status_code = 500)
    (h2 : (env.responses 2).status_code = 200) :
    (Client.request env args (.dict d) 3).attempts = 3
    ∧ (Client.request env args (.dict d) 3).result
        = .ok (env.jsonDecode (env.responses 2).text)
    ∧ (Client.request env args (.dict d) 3).sent.length = 3
    ∧ paramsTimestamp ((Client.request env args (.dict d) 3).sent.getD 0 default)
        = some (get_timestamp (env.clock 0))
    ∧ paramsTimestamp ((Client.request env args (.dict d) 3).sent.getD 1 default)
        = some (get_timestamp (env.clock 1))
    ∧ paramsTimestamp ((Client.request env args (.dict d) 3).sent.getD 2 default)
        = some (get_timestamp (env.clock 2))
    ∧ (env.clock 0 ≠ env.clock 1 → env.clock 0 ≠ env.clock 2
        → env.clock 1 ≠ env.clock 2 →
        paramsTimestamp ((Client.request env args (.dict d) 3).sent.getD 0 default)
            ≠ paramsTimestamp ((Client.request env args (.dict d) 3).sent.getD 1 default)
        ∧ paramsTimestamp ((Client.request env args (.dict d) 3).sent.getD 0 default)
            ≠ paramsTimestamp ((Client.request env args (.dict d) 3).sent.getD 2 default)
        ∧ paramsTimestamp ((Client.request env args (.dict d) 3).sent.getD 1 default)
            ≠ paramsTimestamp ((Client.request env args (.dict d) 3).sent.getD 2 default)) := by
  have hm' : ¬(pyUpper args.method ≠ "POST" ∧ pyUpper args.method ≠ "GET"
      ∧ pyUpper args.method ≠ "PUT") := by tauto
  have hr0 : (env.responses 0).status_code ≠ 200 := by simp [h0]
  have hr1 : (env.responses 1).status_code ≠ 200 := by simp [h1]
  have core : (Client.request env args (.dict d) 3).attempts = 3
      ∧ (Client.request env args (.dict d) 3).result
          = .ok (env.jsonDecode (env.responses 2).text)
      ∧ (Client.request env args (.dict d) 3).sent.length = 3
      ∧ paramsTimestamp ((Client.request env args (.dict d) 3).sent.getD 0 default)
          = some (get_timestamp (env.clock 0))
      ∧ paramsTimestamp ((Client.request env args (.dict d) 3).sent.getD 1 default)
          = some (get_timestamp (env.clock 1))
      ∧ paramsTimestamp ((Client.request env args (.dict d) 3).sent.getD 2 default)
          = some (get_timestamp (env.clock 2)) := by
    simp only [Client.request]
    rw [requestLoop_retry env args (.dict d) 0 2 hm' hr0]
    rw [requestLoop_retry env args _ 1 1 hm' hr1]
    rw [requestLoop_ok env args _ 2 1 hm' h2]
    simp only [buildAttempt, hauto, if_pos]
    refine ⟨by simp, by simp, by simp, ?_, ?_, ?_⟩ <;>
      simp [List.getD, paramsTimestamp, mkSent, dictGet_dictSet]
  obtain ⟨ha, hres, hlen, e0, e1, e2⟩ := core
  refine ⟨ha, hres, hlen, e0, e1, e2, ?_⟩
  intro hc01 hc02 hc12
  rw [e0, e1, e2]
  exact ⟨fun h => hc01 (get_timestamp_injective (Option.some_injective _ h)),
    fun h => hc02 (get_timestamp_injective (Option.some_injective _ h)),
    fun h => hc12 (get_timestamp_injective (Option.some_injective _ h))⟩

theorem c3_witness :
    ((mkEnvS resp2Fail flagsQuiet).responses 0).status_code = 500
    ∧ ((mkEnvS resp2Fail flagsQuiet).responses 1).status_code = 500
    ∧ ((mkEnvS resp2Fail flagsQuiet).responses 2).status_code = 200
    ∧ (Client.request (mkEnvS resp2Fail flagsQuiet) argsW (.dict []) 3).attempts = 3
    ∧ (Client.request (mkEnvS resp2Fail flagsQuiet) argsW (.dict []) 3).result
        = .ok "okbody"
    ∧ paramsTimestamp
        ((Client.request (mkEnvS resp2Fail flagsQuiet) argsW (.dict []) 3).sent.getD 0 default)
      ≠ paramsTimestamp
        ((Client.request (mkEnvS resp2Fail flagsQuiet) argsW (.dict []) 3).sent.getD 1 default) := by
  have main := c3_retry_refreshes_timestamp (mkEnvS resp2Fail flagsQuiet) argsW []
    (Or.inl (by decide)) rfl (by decide) (by decide) (by decide)
  refine ⟨by decide, by decide, by decide, main.1, main.2.1, ?_⟩
  exact (main.2.2.2.2.2.2 (by decide) (by decide) (by decide)).1

/-- C5: `create_listen_key` validates before any network call: an unrecognized
mode yields `InvalidModeError` with zero network calls, isolated-margin with no
symbol yields `MissingSymbolError` with zero network calls, and each valid mode
dispatches to exactly its fixed unsigned POST endpoint. -/
theorem c5_create_listen_key_validates_first (mode : String) (symbol : Option String) :
    (¬(mode = "MAIN" ∨ mode = "FUTURE" ∨ mode = "MARGIN" ∨ mode = "ISOLATED") →
      Client.create_listen_key mode symbol = .error .invalidMode
      ∧ networkCallCount (Client.create_listen_key mode symbol) = 0)
    ∧ (Client.create_listen_key "ISOLATED" none = .error .missingSymbol
      ∧ networkCallCount (Client.create_listen_key "ISOLATED" none) = 0)
    ∧ Client.create_listen_key "MAIN" symbol
        = .ok { area_url := "api", path_url := "/api/v3/userDataStream",
                method := "POST", data := .dict [], send_signature := false }
    ∧ Client.create_listen_key "MARGIN" symbol
        = .ok { area_url := "api", path_url := "/sapi/v1/userDataStream",
                method := "POST", data := .dict [], send_signature := false }
    ∧ (∀ s, Client.create_listen_key "ISOLATED" (some s)
        = .ok { area_url := "api", path_url := "/sapi/v1/userDataStream/isolated",
                method := "POST", data := .dict [("symbol", pyUpper s)],
                send_signature := false })
    ∧ Client.create_listen_key "FUTURE" symbol
        = .ok { area_url := "fapi", path_url := "/fapi/v1/listenKey",
                method := "POST", data := .dict [], send_signature := false } := by
  refine ⟨?_, ?_, ?_, ?_, ?_, ?_⟩
  · intro h
    have hc : mode ≠ "MAIN" ∧ mode ≠ "FUTURE" ∧ mode ≠ "MARGIN" ∧ mode ≠ "ISOLATED" := by
      tauto
    rw [Client.create_listen_key.eq_def, if_pos hc]
    exact ⟨rfl, rfl⟩
  · exact ⟨by simp [Client.create_listen_key], by simp [Client.create_listen_key, networkCallCount]⟩
  · simp [Client.create_listen_key]
  · simp [Client.create_listen_key]
  · intro s; simp [Client.create_listen_key]
  · simp [Client.create_listen_key]

theorem c5_witness :
    Client.create_listen_key "BOGUS" none = .error .invalidMode
    ∧ networkCallCount (Client.create_listen_key "BOGUS" none) = 0
    ∧ Client.create_listen_key "ISOLATED" none = .error .missingSymbol
    ∧ networkCallCount (Client.create_listen_key "ISOLATED" none) = 0 := by
  have main := c5_create_listen_key_validates_first "BOGUS" none
  exact ⟨(main.1 (by decide)).1, (main.1 (by decide)).2, main.2.1.1, main.2.1.2⟩

set_option maxRecDepth 8192 in
/-- C6 (refuting evaluation): with `only_print_error = False`,
`print_simple_trace = True`, `trace_to_file = False`, a non-200 response whose
body exceeds 50 characters is surfaced only as a console block truncated to 50
characters — no emitted diagnostic carries the full body. This contradicts the
claim that the full body is always surfaced, and the source's own comment on
`print_simple_trace` (src/binance.py:29) that error requests are always shown
in full. -/
theorem c6_truncated_error_diagnostic :
    (Client.request (mkEnvS respFailLong flagsVerboseSimple) argsW (.dict []) 0).diags.map
        Diagnostic.text
      = [longBody.take 50]
    ∧ longBody.take 50 ≠ longBody := by
  exact ⟨by decide, by decide⟩

theorem str_run_const {J : Type} (env : ReqEnv J) (args : ReqArgs) (s : String)
    (clock' : Nat → Nat) (b : Bool) :
    ∀ (rc attempt : Nat),
      requestLoop { env with clock := clock' } { args with auto_timestamp := b }
          (.str s) attempt rc
        = requestLoop env args (.str s) attempt rc
      ∧ ∀ i, i < (requestLoop env args (.str s) attempt rc).sent.length →
          (requestLoop env args (.str s) attempt rc).sent.getD i default
            = mkSent env args (.str s) s := by
  intro rc
  induction rc with
  | zero =>
    intro attempt
    by_cases hm : pyUpper args.method ≠ "POST" ∧ pyUpper args.method ≠ "GET"
        ∧ pyUpper args.method ≠ "PUT"
    · rw [requestLoop_invalid env args (.str s) attempt 0 hm,
        requestLoop_invalid { env with clock := clock' }
          { args with auto_timestamp := b } (.str s) attempt 0 hm]
      exact ⟨rfl, fun i hi => absurd hi (by simp)⟩
    · by_cases hr : (env.responses attempt).status_code = 200
      · rw [requestLoop_ok env args (.str s) attempt 0 hm hr,
          requestLoop_ok { env with clock := clock' }
            { args with auto_timestamp := b } (.str s) attempt 0 hm hr]
        refine ⟨rfl, fun i hi => ?_⟩
        have h0 : i = 0 := by simpa using hi
        subst h0
        rfl
      · rw [requestLoop_exhausted env args (.str s) attempt hm hr,
          requestLoop_exhausted { env with clock := clock' }
            { args with auto_timestamp := b } (.str s) attempt hm hr]
        refine ⟨rfl, fun i hi => ?_⟩
        have h0 : i = 0 := by simpa using hi
        subst h0
        rfl
  | succ rc ih =>
    intro attempt
    by_cases hm : pyUpper args.method ≠ "POST" ∧ pyUpper args.method ≠ "GET"
        ∧ pyUpper args.method ≠ "PUT"
    · rw [requestLoop_invalid env args (.str s) attempt (rc + 1) hm,
        requestLoop_invalid { env with clock := clock' }
          { args with auto_timestamp := b } (.str s) attempt (rc + 1) hm]
      exact ⟨rfl, fun i hi => absurd hi (by simp)⟩
    · by_cases hr : (env.responses attempt).status_code = 200
      · rw [requestLoop_ok env args (.str s) attempt (rc + 1) hm hr,
          requestLoop_ok { env with clock := clock' }
            { args with auto_timestamp := b } (.str s) attempt (rc + 1) hm hr]
        refine ⟨rfl, fun i hi => ?_⟩
        have h0 : i = 0 := by simpa using hi
        subst h0
        rfl
      · rw [requestLoop_retry env args (.str s) attempt rc hm hr,
          requestLoop_retry { env with clock := clock' }
            { args with auto_timestamp := b } (.str s) attempt rc hm hr]
        simp only [buildAttempt]
        rw [(ih (attempt + 1)).1]
        refine ⟨rfl, fun i hi => ?_⟩
        cases i with
        | zero => rfl
        | succ j =>
          simp only [List.length_cons, Nat.succ_lt_succ_iff] at hi
          simpa [List.getD_cons_succ] using (ih (attempt + 1)).2 j hi

/-- C9: when `data` is a pre-serialized string, `auto_timestamp` has no effect
and the clock is never read: the whole observable run is unchanged under any
auto-timestamp setting and any clock, and every attempt transmits the identical
record — payload `s`, the same signature, the same URL, and no `timestamp`
field is injected. -/
theorem c9_str_data_ignores_auto_timestamp {J : Type} (env : ReqEnv J)
    (args : ReqArgs) (s : String) (retry_count : Nat) (clock' : Nat → Nat)
    (b : Bool) :
    Client.request { env with clock := clock' } { args with auto_timestamp := b }
        (.str s) retry_count
      = Client.request env args (.str s) retry_count
    ∧ (∀ i, i < (Client.request env args (.str s) retry_count).sent.length →
        (Client.request env args (.str s) retry_count).sent.getD i default
          = mkSent env args (.str s) s)
    ∧ paramsTimestamp (mkSent env args (.str s) s) = none :=
  ⟨(str_run_const env args s clock' b retry_count 0).1,
    (str_run_const env args s clock' b retry_count 0).2, rfl⟩

theorem c9_witness :
    0 < (Client.request (mkEnvS respFail flagsQuiet) argsW (.str "a=1") 1).sent.length
    ∧ (Client.request (mkEnvS respFail flagsQuiet) argsW (.str "a=1") 1).sent.getD 0 default
        = mkSent (mkEnvS respFail flagsQuiet) argsW (.str "a=1") "a=1" :=
  ⟨by decide,
    (c9_str_data_ignores_auto_timestamp (mkEnvS respFail flagsQuiet) argsW "a=1" 1
      (fun _ => 0) false).2.1 0 (by decide)⟩
